import Mathlib

/-!
Shallow embedding of the ETB (embedded testbench) drivers:
MIC24045 DC/DC converter, INA219 wattmeter, TCA9548A I2C multiplexer,
and the VSM voltage-scaling facade (source files under source/ETB/core/).
Python register values are embedded as Int/Nat, Python floats as exact
rationals where every value involved is float-exact or rounding-robust,
and as an explicit IEEE-754 binary64 model where rounding is load-bearing
(the voltage round trip); fallible operations become Option/Except, and
bus traffic explicit traces of attempted hardware operations.
-/

namespace ETB

/-- Python exceptions that the embedded code can raise. -/
inductive PyErr where
  | nameError (id : String)
  | valueError
deriving DecidableEq, Repr

/-- Name lookup in a Python local scope: an unbound name raises NameError. -/
def lookupName (scope : List (String × Int)) (x : String) : Except PyErr Int :=
  match scope.find? (fun p => p.1 == x) with
  | some p => Except.ok p.2
  | none => Except.error (PyErr.nameError x)

/-- One observable hardware action attempted by a driver: a GPIO enable-line
write, a raw mux-control-byte write (the TCA9548A select), a MIC
status-register read, a MIC VOUT register write, or a MIC SET1
current-limit write. -/
inductive Op where
  | gpio (channel : Nat) (level : Bool)
  | muxWrite (byte : Nat)
  | statusRead (channel : Nat)
  | voutWrite (channel : Nat) (value : Int)
  | ilimWrite (channel : Nat) (ilim : Int)
deriving DecidableEq, Repr

namespace MIC24045

/-- The piecewise-linear VOUT-register-to-volts table shared by
MIC24045.get_voltage_from_register and MIC24045.get_voltage_V
(MIC24045.py lines 530-544: 5 mV steps below register 129, 10 mV steps
below 196, 30 mV steps below 245, 50 mV steps from 245 up). -/
def vout_from_reg (reg : Int) : ℚ :=
  if reg < 129 then (reg : ℚ) * (5/1000) + 640/1000
  else if reg < 196 then ((reg : ℚ) - 129) * (1/100) + 129/100
  else if reg < 245 then ((reg : ℚ) - 196) * (3/100) + 198/100
  else ((reg : ℚ) - 245) * (5/100) + 475/100

/-- The Python builtin int() applied to a rational: truncation toward zero. -/
def pyint (q : ℚ) : Int :=
  if 0 ≤ q then ⌊q⌋ else -⌊-q⌋

/-- MIC24045.get_register_from_voltage (MIC24045.py lines 553-583): inverts
each segment of the table with int() truncation and special-cases the three
margin zones between segments; voltages below 0.64 or above 5.25 yield the
Python False (here none). -/
def get_register_from_voltage (vout : ℚ) : Option Int :=
  if vout < 64/100 then none
  else if vout < 128/100 then some (pyint ((vout - 64/100) / (5/1000)))
  else if vout < 129/100 then some 128
  else if vout < 195/100 then some (pyint ((vout - 129/100) / (1/100)) + 129)
  else if vout < 198/100 then some 195
  else if vout < 342/100 then some (pyint ((vout - 198/100) / (3/100)) + 196)
  else if vout < 475/100 then some 244
  else if vout ≤ 525/100 then some (pyint ((vout - 475/100) / (5/100)) + 245)
  else none

/-- IEEE-754 binary64 value m * 2^e. The rational embedding above is exact
for the approved claims (their constants and results are float-exact or
rounding-robust), but the round-trip behaviour of the register conversion
depends on CPython float rounding, so it is modelled explicitly: rounding
of an exact rational p/q to the nearest double (ties to even), and each
arithmetic operation as the correctly rounded exact result, per IEEE-754.
The model covers the normal range, which contains every value these
functions compute. -/
structure F64 where
  m : Int
  e : Int
deriving DecidableEq, Repr

namespace F64

/-- Number of binary digits of n (fuel-bounded structural recursion; the
fuel 4096 passed below always exceeds the bit count of the operands). -/
def natBits (fuel n : Nat) : Nat :=
  match fuel with
  | 0 => 0
  | fuel + 1 => if n = 0 then 0 else natBits fuel (n / 2) + 1

/-- Round the exact rational p/q (q > 0) to the nearest binary64 value,
ties to even: find the exponent E with 2^E <= |p/q| < 2^(E+1), scale to a
53-bit mantissa, round on the division remainder, and renormalize a
carried-out mantissa. -/
def round (p q : Int) : F64 :=
  if p = 0 then ⟨0, 0⟩
  else
    let a : Nat := p.natAbs
    let b : Nat := q.natAbs
    let d : Int := (natBits 4096 a : Int) - (natBits 4096 b : Int)
    let geD : Bool := if 0 ≤ d then decide (b * 2 ^ d.toNat ≤ a) else decide (b ≤ a * 2 ^ (-d).toNat)
    let E : Int := if geD then d else d - 1
    let k : Int := 52 - E
    let N : Nat := if 0 ≤ k then a * 2 ^ k.toNat else a
    let D : Nat := if 0 ≤ k then b else b * 2 ^ (-k).toNat
    let m0 : Nat := N / D
    let r : Nat := N % D
    let m1 : Nat :=
      if D < 2 * r then m0 + 1
      else if 2 * r < D then m0
      else if m0 % 2 = 1 then m0 + 1 else m0
    let m2 : Nat := if m1 = 2 ^ 53 then 2 ^ 52 else m1
    let E2 : Int := if m1 = 2 ^ 53 then E + 1 else E
    ⟨if p < 0 then -(m2 : Int) else (m2 : Int), E2 - 52⟩

/-- Conversion of a Python int to float (exact for the magnitudes here). -/
def intToF (n : Int) : F64 := round n 1

/-- Float multiplication: round the exact product. -/
def fmul (x y : F64) : F64 :=
  let e := x.e + y.e
  if 0 ≤ e then round (x.m * y.m * 2 ^ e.toNat) 1 else round (x.m * y.m) (2 ^ (-e).toNat)

/-- Float addition: round the exact sum. -/
def fadd (x y : F64) : F64 :=
  let e := min x.e y.e
  let p := x.m * 2 ^ (x.e - e).toNat + y.m * 2 ^ (y.e - e).toNat
  if 0 ≤ e then round (p * 2 ^ e.toNat) 1 else round p (2 ^ (-e).toNat)

/-- Float subtraction: round the exact difference. -/
def fsub (x y : F64) : F64 := fadd x ⟨-y.m, y.e⟩

/-- Float division: round the exact quotient. -/
def fdiv (x y : F64) : F64 :=
  let s := x.e - y.e
  let p : Int := if 0 ≤ s then x.m * 2 ^ s.toNat else x.m
  let q : Int := if 0 ≤ s then y.m else y.m * 2 ^ (-s).toNat
  if q < 0 then round (-p) (-q) else round p q

/-- Float less-than (exact on the represented values). -/
def flt (x y : F64) : Bool :=
  let e := min x.e y.e
  x.m * 2 ^ (x.e - e).toNat < y.m * 2 ^ (y.e - e).toNat

/-- Float less-or-equal (exact on the represented values). -/
def fle (x y : F64) : Bool :=
  let e := min x.e y.e
  x.m * 2 ^ (x.e - e).toNat ≤ y.m * 2 ^ (y.e - e).toNat

/-- The Python builtin int() applied to a float: truncation toward zero
(exact). -/
def ftrunc (x : F64) : Int :=
  if 0 ≤ x.e then x.m * 2 ^ x.e.toNat
  else if 0 ≤ x.m then (x.m.toNat / 2 ^ (-x.e).toNat : Nat)
  else -((x.m.natAbs / 2 ^ (-x.e).toNat : Nat) : Int)

end F64

open F64

/-- The float literals of MIC24045.py as CPython parses them: the double
nearest to the written decimal (0.640 and 0.64 parse to the same value). -/
def c0_005 : F64 := F64.round 5 1000
def c0_64 : F64 := F64.round 64 100
def c0_01 : F64 := F64.round 1 100
def c1_28 : F64 := F64.round 128 100
def c1_29 : F64 := F64.round 129 100
def c1_95 : F64 := F64.round 195 100
def c0_03 : F64 := F64.round 3 100
def c1_98 : F64 := F64.round 198 100
def c3_42 : F64 := F64.round 342 100
def c0_05 : F64 := F64.round 5 100
def c4_75 : F64 := F64.round 475 100
def c5_25 : F64 := F64.round 525 100

/-- The piecewise table of MIC24045.py lines 530-544 in binary64: the
register arithmetic is exact int arithmetic, the voltage arithmetic is
float multiplication and addition. -/
def vout_from_reg_f (reg : Int) : F64 :=
  if reg < 129 then fadd (fmul (intToF reg) c0_005) c0_64
  else if reg < 196 then fadd (fmul (intToF (reg - 129)) c0_01) c1_29
  else if reg < 245 then fadd (fmul (intToF (reg - 196)) c0_03) c1_98
  else fadd (fmul (intToF (reg - 245)) c0_05) c4_75

/-- MIC24045.get_voltage_from_register (lines 526-545) in binary64. -/
def get_voltage_from_register_f (reg : Int) : Option F64 :=
  if reg < 0 ∨ 0xFF < reg then none
  else some (vout_from_reg_f reg)

/-- MIC24045.get_register_from_voltage (lines 553-583) in binary64: float
comparisons against the parsed literals, float subtraction and division,
int() truncation. -/
def get_register_from_voltage_f (vout : F64) : Option Int :=
  if flt vout c0_64 then none
  else if flt vout c1_28 then some (ftrunc (fdiv (fsub vout c0_64) c0_005))
  else if flt vout c1_29 then some 128
  else if flt vout c1_95 then some (ftrunc (fdiv (fsub vout c1_29) c0_01) + 129)
  else if flt vout c1_98 then some 195
  else if flt vout c3_42 then some (ftrunc (fdiv (fsub vout c1_98) c0_03) + 196)
  else if flt vout c4_75 then some 244
  else if fle vout c5_25 then some (ftrunc (fdiv (fsub vout c4_75) c0_05) + 245)
  else none

/-- The composition get_register_from_voltage(get_voltage_from_register(r))
in binary64, as the program computes it. -/
def roundtrip_f (reg : Int) : Option Int :=
  (get_voltage_from_register_f reg).bind get_register_from_voltage_f

end MIC24045

end ETB

set_option maxRecDepth 8000
set_option maxHeartbeats 16000000

section ClaimMIC

open ETB ETB.MIC24045 ETB.MIC24045.F64

/-- C2 counterexample: under the binary64 float semantics of the program,
get_voltage_from_register(12) is the double 0.7, which lies below 1.28 and
hence in no margin zone, yet int((0.7 - 0.64)/0.005) truncates the quotient
11.999999999999988 to 11, so the round trip yields 11, not 12. -/
theorem claim_C2_counterexample :
    roundtrip_f 12 = some 11 ∧ some (11 : Int) ≠ some (12 : Int) ∧
    flt (vout_from_reg_f 12) c1_28 = true := by
  decide

/-- C2 amended: for every register value r in 0..255 the binary64 round
trip get_register_from_voltage(get_voltage_from_register(r)) equals r or
r - 1 (the float division may truncate one register short, which it does at
90 of the 256 registers), and when the voltage falls in one of the three
margin zones the result is the documented lower-bound register 128, 195 or
244 respectively, never any other value. -/
theorem claim_C2_amended (r : Fin 256) :
    (roundtrip_f (r.val : Int) = some (r.val : Int) ∨
     roundtrip_f (r.val : Int) = some ((r.val : Int) - 1)) ∧
    (fle c1_28 (vout_from_reg_f r.val) = true ∧ flt (vout_from_reg_f r.val) c1_29 = true →
      roundtrip_f (r.val : Int) = some 128) ∧
    (fle c1_95 (vout_from_reg_f r.val) = true ∧ flt (vout_from_reg_f r.val) c1_98 = true →
      roundtrip_f (r.val : Int) = some 195) ∧
    (fle c3_42 (vout_from_reg_f r.val) = true ∧ flt (vout_from_reg_f r.val) c4_75 = true →
      roundtrip_f (r.val : Int) = some 244) := by
  revert r
  decide

/-- C2 witness: register 128 produces the voltage 1.28, which lies in the
first margin zone, and the round trip indeed yields the documented
register 128. -/
theorem claim_C2_witness : roundtrip_f 128 = some 128 :=
  (claim_C2_amended ⟨128, by norm_num⟩).2.1 (by decide)

/-- C8: get_register_from_voltage fails (returns none, the embedding of the
Python False) for every voltage strictly below 0.64 and strictly above
5.25. -/
theorem claim_C8 (v : ℚ) (h : v < 64/100 ∨ 525/100 < v) :
    get_register_from_voltage v = none := by
  unfold get_register_from_voltage
  rcases h with h | h
  · rw [if_pos h]
  · split_ifs <;> first | rfl | linarith

/-- C8 witness: both 0.5 and 5.3 are rejected. -/
theorem claim_C8_witness :
    get_register_from_voltage (5/10) = none ∧ get_register_from_voltage (53/10) = none :=
  ⟨claim_C8 (5/10) (Or.inl (by norm_num)), claim_C8 (53/10) (Or.inr (by norm_num))⟩

end ClaimMIC

namespace ETB

namespace MIC24045

/-- MIC24045.is_enabled (MIC24045.py lines 272-282) as a function of the
status-register read outcome (none embeds the Python False returned when the
read raised): 1 if the EnS bit 0x08 is set, else 0; none when the read
failed. -/
def is_enabled (readResult : Option Nat) : Option Int :=
  match readResult with
  | none => none
  | some v => some (if v &&& 0x08 ≠ 0 then 1 else 0)

/-- MIC24045.is_power_good (MIC24045.py lines 289-299), same shape testing
the PGS bit 0x01. -/
def is_power_good (readResult : Option Nat) : Option Int :=
  match readResult with
  | none => none
  | some v => some (if v &&& 0x01 ≠ 0 then 1 else 0)

/-- MIC24045.get_voltage_V (MIC24045.py lines 481-502) as a function of the
VOUT register read outcome. The source binds the read value to the local
name ret, then the conversion branch at line 489 reads the name reg, which
is bound nowhere in the function or module, so CPython raises NameError
there; only the read-failure path returns the Python False (none). -/
def get_voltage_V (readResult : Option Int) : Except PyErr (Option ℚ) :=
  match readResult with
  | none => Except.ok none
  | some ret =>
    match lookupName [("ret", ret)] "reg" with
    | Except.error e => Except.error e
    | Except.ok reg => Except.ok (some (vout_from_reg reg))

/-- MIC24045.get_voltage_mV (MIC24045.py lines 510-518): delegates to
get_voltage_V, propagating an exception, returning the Python False (none)
if it returned False, and scaling by 1000 otherwise. -/
def get_voltage_mV (readResult : Option Int) : Except PyErr (Option ℚ) :=
  match get_voltage_V readResult with
  | Except.error e => Except.error e
  | Except.ok none => Except.ok none
  | Except.ok (some v) => Except.ok (some (v * 1000))

end MIC24045

namespace INA219

/-- INA219.read_ina_register (INA219.py lines 188-196) on the two raw bytes
returned by the block read: build the big-endian 16-bit value and subtract
0x10000 when bit 15 is set. -/
def read_ina_register (buf0 buf1 : Nat) : Int :=
  if ((buf0 <<< 8) ||| buf1) &&& 0x8000 ≠ 0 then (((buf0 <<< 8) ||| buf1 : Nat) : Int) - 65536
  else (((buf0 <<< 8) ||| buf1 : Nat) : Int)

/-- The current LSB in mA per bit installed by INA219._calibrate_16V_400mA
(INA219.py line 138: self._current_lsb = 0.05). -/
def currentLSB_400mA : ℚ := 5/100

/-- INA219.get_current_mA (INA219.py lines 241-242): the sign-extended
CURRENT register value scaled by the calibration profile current LSB. -/
def get_current_mA (current_lsb : ℚ) (buf0 buf1 : Nat) : ℚ :=
  (read_ina_register buf0 buf1 : ℚ) * current_lsb

end INA219

namespace TCA9548A

/-- TCA9548A.select (TCA9548A.py lines 51-65) with the success of the
underlying raw bus write given by writeOk: out-of-range channels fail before
any write; channel 0 writes the zero byte; channels 1..8 write the
single-hot byte 1 shifted left by channel-1. Returns the trace of attempted
bus writes and the Python bool result. -/
def select (writeOk : Bool) (channel : Int) : List Op × Bool :=
  if channel < 0 ∨ 8 < channel then ([], false)
  else
    let byte := if 0 < channel then 1 <<< (channel - 1).toNat else 0
    ([Op.muxWrite byte], writeOk)

/-- TCA9548A.get_channels (TCA9548A.py lines 86-109) on the raw read-back
(none embeds the Python False returned when the read raised): decodes the
bitmask into the 1-based list of active channels, testing bits 0..7 in
order. -/
def get_channels (raw : Option Nat) : Option (List Nat) :=
  match raw with
  | none => none
  | some raw =>
    let channels : List Nat := []
    let channels := if raw ≠ 0 then
      channels ++ (if raw &&& 0x01 ≠ 0 then [1] else []) ++ (if raw &&& 0x02 ≠ 0 then [2] else [])
        ++ (if raw &&& 0x04 ≠ 0 then [3] else []) ++ (if raw &&& 0x08 ≠ 0 then [4] else [])
        ++ (if raw &&& 0x10 ≠ 0 then [5] else []) ++ (if raw &&& 0x20 ≠ 0 then [6] else [])
        ++ (if raw &&& 0x40 ≠ 0 then [7] else []) ++ (if raw &&& 0x80 ≠ 0 then [8] else [])
      else channels
    some channels

end TCA9548A

end ETB

section ClaimDrivers

open ETB ETB.MIC24045 ETB.INA219 ETB.TCA9548A

/-- C6: with the low-current calibration profile (current LSB 0.05 mA/bit),
get_current_mA on a raw CURRENT register reading of 0x0064 returns 5.0 and
on a raw reading of 0x8000 returns -1638.4, because a 16-bit register read
with bit 15 set is sign-extended by subtracting 0x10000. -/
theorem claim_C6 :
    (∀ b0 b1 : Nat, ((b0 <<< 8) ||| b1) &&& 0x8000 ≠ 0 →
      read_ina_register b0 b1 = (((b0 <<< 8) ||| b1 : Nat) : Int) - 65536) ∧
    get_current_mA currentLSB_400mA 0x00 0x64 = 5 ∧
    get_current_mA currentLSB_400mA 0x80 0x00 = -(8192/5) := by
  refine ⟨fun b0 b1 h => ?_, ?_, ?_⟩
  · unfold read_ina_register
    rw [if_pos h]
  · have h1 : read_ina_register 0x00 0x64 = 100 := by decide
    unfold get_current_mA currentLSB_400mA
    rw [h1]
    norm_num
  · have h2 : read_ina_register 0x80 0x00 = -32768 := by decide
    unfold get_current_mA currentLSB_400mA
    rw [h2]
    norm_num

/-- C6 witness: the sign-extension clause applied at the raw bytes of
0x8000. -/
theorem claim_C6_witness : read_ina_register 0x80 0x00 = (((0x80 <<< 8) ||| 0x00 : Nat) : Int) - 65536 :=
  claim_C6.1 0x80 0x00 (by decide)

/-- C7: TCA9548A.select accepts exactly channels 0..8: out-of-range
channels fail without any bus write, channel 0 writes the zero byte,
channels 1..8 write the single-hot byte 1 shifted left by channel-1 (so
select(3) writes 0b00000100), and get_channels decodes a read-back of
0b10000001 to the 1-based list [1, 8]. -/
theorem claim_C7 :
    (∀ (ok : Bool) (ch : Int), ch < 0 ∨ 8 < ch → select ok ch = ([], false)) ∧
    (∀ ok : Bool, select ok 0 = ([Op.muxWrite 0], ok)) ∧
    (∀ (ok : Bool) (ch : Int), 1 ≤ ch → ch ≤ 8 →
      select ok ch = ([Op.muxWrite (1 <<< (ch - 1).toNat)], ok)) ∧
    select true 3 = ([Op.muxWrite 4], true) ∧
    get_channels (some 0b10000001) = some [1, 8] := by
  refine ⟨fun ok ch h => ?_, fun ok => ?_, fun ok ch h1 h8 => ?_, ?_, ?_⟩
  · unfold select
    rw [if_pos h]
  · simp [select]
  · unfold select
    rw [if_neg (by omega), if_pos (by omega)]
  · decide
  · decide

/-- C7 witness: the out-of-range clause applied at channel 9 and the
single-hot clause applied at channel 3. -/
theorem claim_C7_witness :
    select true 9 = ([], false) ∧ select true 3 = ([Op.muxWrite (1 <<< ((3 : Int) - 1).toNat)], true) :=
  ⟨claim_C7.1 true 9 (Or.inr (by norm_num)), claim_C7.2.2.1 true 3 (by norm_num) (by norm_num)⟩

/-- C9: whenever the VOUT register read succeeds, get_voltage_V raises
NameError on the unbound name reg, so it never returns a voltage; it
returns the Python False (none) exactly when the read itself failed, and
consequently get_voltage_mV can never return a millivolt value. -/
theorem claim_C9 :
    (∀ v : Int, get_voltage_V (some v) = Except.error (PyErr.nameError "reg")) ∧
    get_voltage_V none = Except.ok none ∧
    (∀ (rr : Option Int) (q : ℚ), get_voltage_mV rr ≠ Except.ok (some q)) := by
  refine ⟨fun v => rfl, rfl, fun rr q => ?_⟩
  cases rr with
  | none => simp [get_voltage_mV, get_voltage_V]
  | some v => simp [get_voltage_mV, get_voltage_V, lookupName, List.find?]

end ClaimDrivers

namespace ETB

namespace VSM

/-- VSM._set_enable (VSM.py lines 83-100) for an in-range channel, with the
status-register read outcome given by st: drive the GPIO enable line, select
the mux channel (byte 1 shifted left by channel, result ignored by the
source), read is_enabled, deselect (result ignored), and return the
is_enabled result (none embeds the Python False). Note: the deselect is
always attempted here. -/
def set_enable (st : Option Nat) (channel : Fin 4) (enabled : Bool) : List Op × Option Int :=
  ([Op.gpio channel.val enabled, Op.muxWrite (1 <<< channel.val),
    Op.statusRead channel.val, Op.muxWrite 0],
   MIC24045.is_enabled st)

/-- VSM.ALL_enable loop body (VSM.py lines 160-164) over the remaining rail
indices, with each rail status read supplied by env: call _set_enable(i,1)
and return False as soon as one call returns the Python False. -/
def ALL_enable_go (env : Fin 4 → Option Nat) : List (Fin 4) → List Op × Bool
  | [] => ([], true)
  | i :: rest =>
    match (set_enable (env i) i true).2 with
    | none => ((set_enable (env i) i true).1, false)
    | some _ =>
      ((set_enable (env i) i true).1 ++ (ALL_enable_go env rest).1, (ALL_enable_go env rest).2)

/-- VSM.ALL_enable (VSM.py lines 160-164): iterate rails 0,1,2,3 in order. -/
def ALL_enable (env : Fin 4 → Option Nat) : List Op × Bool :=
  ALL_enable_go env [0, 1, 2, 3]

/-- The GPIO channels touched by a trace, in order: one entry per rail whose
per-rail operation was invoked. -/
def gpioChannels (ops : List Op) : List Nat :=
  ops.filterMap fun o => match o with
    | Op.gpio c _ => some c
    | _ => none

/-- VSM._set_vout (VSM.py lines 315-328) for an in-range channel, with the
success of the entry select, the VOUT write and the exit deselect given by
selOk, writeOk, deselOk: each failing step returns False at once, so the
deselect write is only attempted after the VOUT write succeeded.
set_output_voltage masks the value to 8 bits (value & 0xFF). -/
def set_vout (selOk writeOk deselOk : Bool) (channel : Fin 4) (value : Int) : List Op × Bool :=
  let ops1 := [Op.muxWrite (1 <<< channel.val)]
  if selOk = false then (ops1, false)
  else
    let ops2 := ops1 ++ [Op.voutWrite channel.val (value % 256)]
    if writeOk = false then (ops2, false)
    else
      let ops3 := ops2 ++ [Op.muxWrite 0]
      if deselOk = false then (ops3, false)
      else (ops3, true)

/-- VSM._is_power_good (VSM.py lines 442-457) for an in-range channel, with
the entry select success, the status-register read outcome and the exit
deselect success given: a failed select or a failed status read returns the
Python False (none) at once - in the read-failure case without attempting
the deselect - while a successful read of either flag value (the source
tests ret is False, and the ints 0 and 1 are not False) proceeds to the
deselect and returns the flag. -/
def is_power_good_rail (selOk : Bool) (st : Option Nat) (deselOk : Bool) (channel : Fin 4) :
    List Op × Option Int :=
  let ops1 := [Op.muxWrite (1 <<< channel.val)]
  if selOk = false then (ops1, none)
  else
    let ops2 := ops1 ++ [Op.statusRead channel.val]
    match MIC24045.is_power_good st with
    | none => (ops2, none)
    | some ret =>
      let ops3 := ops2 ++ [Op.muxWrite 0]
      if deselOk = false then (ops3, none)
      else (ops3, some ret)

/-- VSM._wait_power_good loop (VSM.py lines 505-520), with the result of the
k-th _is_power_good poll supplied by the oracle pg (none embeds the Python
False, which the while condition compares with is False; a successful read
of either int exits the loop). passed is the elapsed-time counter of the
source, polls counts the _is_power_good calls made so far and sleeps the
milliseconds slept so far; the result is (returned bool, total polls, total
sleep ms). -/
def wait_power_good_go (pg : Nat → Option Int) (timeout : Nat) (passed polls sleeps : Nat) :
    Bool × Nat × Nat :=
  match pg polls with
  | none =>
    if timeout ≤ passed then (false, polls + 1, sleeps)
    else wait_power_good_go pg timeout (passed + 10) (polls + 1) (sleeps + 10)
  | some _ => (true, polls + 1, sleeps)
termination_by timeout - passed
decreasing_by omega

/-- VSM._wait_power_good (VSM.py lines 505-520): the loop started with
passed = 0. -/
def wait_power_good (pg : Nat → Option Int) (timeout : Nat) : Bool × Nat × Nat :=
  wait_power_good_go pg timeout 0 0 0

/-- VSM._limit_A (VSM.py lines 184-197) for an in-range channel: line 188
reads the name rself, while the local scope binds only self, channel and
ilim, so CPython raises NameError before any bus operation; the remainder
of the body (select, current-limit write, deselect, with the current-limit
read-modify-write abstracted to one fallible register write) is unreachable
but kept as written. Returns the trace of attempted bus operations together
with the outcome. -/
def limit_A (selOk writeOk deselOk : Bool) (channel : Fin 4) (ilim : Int) :
    List Op × Except PyErr Bool :=
  match lookupName [("self", 0), ("channel", (channel.val : Int)), ("ilim", ilim)] "rself" with
  | Except.error e => ([], Except.error e)
  | Except.ok _ =>
    let ops1 := [Op.muxWrite (1 <<< channel.val)]
    if selOk = false then (ops1, Except.ok false)
    else
      let ops2 := ops1 ++ [Op.ilimWrite channel.val ilim]
      if writeOk = false then (ops2, Except.ok false)
      else
        let ops3 := ops2 ++ [Op.muxWrite 0]
        if deselOk = false then (ops3, Except.ok false)
        else (ops3, Except.ok true)

/-- VSM.ALL_limit_A loop (VSM.py lines 236-240) over the remaining rail
indices: call _limit_A(i, ilim) for each rail, propagating an exception,
stopping at the first Python False. -/
def ALL_limit_A_go (selOk writeOk deselOk : Bool) (ilim : Int) :
    List (Fin 4) → List Op × Except PyErr Bool
  | [] => ([], Except.ok true)
  | i :: rest =>
    match limit_A selOk writeOk deselOk i ilim with
    | (ops, Except.error e) => (ops, Except.error e)
    | (ops, Except.ok false) => (ops, Except.ok false)
    | (ops, Except.ok true) =>
      (ops ++ (ALL_limit_A_go selOk writeOk deselOk ilim rest).1,
       (ALL_limit_A_go selOk writeOk deselOk ilim rest).2)

/-- VSM.ALL_limit_A (VSM.py lines 236-240): iterate rails 0,1,2,3 in
order. -/
def ALL_limit_A (selOk writeOk deselOk : Bool) (ilim : Int) : List Op × Except PyErr Bool :=
  ALL_limit_A_go selOk writeOk deselOk ilim [0, 1, 2, 3]

end VSM

end ETB

section ClaimVSM

open ETB ETB.VSM

/-- C3 counterexample: _set_vout on channel 0 with a successful entry select
and a failing inner VOUT write reports failure without ever attempting the
select(0) deselect write, so a per-rail operation whose inner bus action
fails does not reset the multiplexer selection. -/
theorem claim_C3_counterexample :
    (set_vout true false true 0 100).2 = false ∧
    Op.muxWrite 0 ∉ (set_vout true false true 0 100).1 := by
  decide

/-- C3 amended: a per-rail operation whose steps all succeed does end with
the select(0) deselect write, but _set_vout and _is_power_good issue the
deselect only on the success path of the inner action: when the inner VOUT
write or the inner status read fails they report failure at once without
attempting the deselect. -/
theorem claim_C3_amended (ch : Fin 4) (v : Int) (deselOk : Bool) (st : Option Nat) :
    (set_vout true false deselOk ch v).2 = false ∧
    Op.muxWrite 0 ∉ (set_vout true false deselOk ch v).1 ∧
    Op.muxWrite 0 ∈ (set_vout true true deselOk ch v).1 ∧
    (is_power_good_rail true none deselOk ch).2 = none ∧
    Op.muxWrite 0 ∉ (is_power_good_rail true none deselOk ch).1 ∧
    (st.isSome = true → Op.muxWrite 0 ∈ (is_power_good_rail true st deselOk ch).1) := by
  have hsh : (1 : Nat) <<< ch.val ≠ 0 := by
    rw [Nat.one_shiftLeft]
    positivity
  refine ⟨?_, ?_, ?_, ?_, ?_, fun hst => ?_⟩
  · simp [set_vout]
  · simp [set_vout, hsh, Ne.symm hsh]
  · cases deselOk <;> simp [set_vout]
  · simp [is_power_good_rail, MIC24045.is_power_good]
  · simp [is_power_good_rail, MIC24045.is_power_good, hsh, Ne.symm hsh]
  · obtain ⟨sv, rfl⟩ := Option.isSome_iff_exists.mp hst
    cases deselOk <;> simp [is_power_good_rail, MIC24045.is_power_good]

/-- C3 witness: on channel 0 with a successful status read the deselect
write is attempted. -/
theorem claim_C3_witness : Op.muxWrite 0 ∈ (is_power_good_rail true (some 1) true 0).1 :=
  (claim_C3_amended 0 100 true (some 1)).2.2.2.2.2 rfl

/-- C4: ALL_enable iterates rails in index order 0..3 and fails fast: if
the per-rail status read fails on rail i while all earlier rails succeed,
exactly rails 0..i are invoked (rails after i never are) and the whole-bank
call reports failure. -/
theorem claim_C4 (env : Fin 4 → Option Nat) (i : Fin 4)
    (hbefore : ∀ j : Fin 4, j < i → (env j).isSome = true) (hfail : env i = none) :
    (ALL_enable env).2 = false ∧
    gpioChannels (ALL_enable env).1 = List.range (i.val + 1) := by
  obtain ⟨iv, hiv⟩ := i
  interval_cases iv
  · have h0 : env 0 = none := hfail
    refine ⟨?_, ?_⟩ <;>
      simp [ALL_enable, ALL_enable_go, set_enable, MIC24045.is_enabled, h0, gpioChannels,
        List.range_succ] <;> try decide
  · obtain ⟨v0, h0⟩ := Option.isSome_iff_exists.mp (hbefore 0 (by simp [Fin.lt_def] <;> decide))
    have h1 : env 1 = none := hfail
    refine ⟨?_, ?_⟩ <;>
      simp [ALL_enable, ALL_enable_go, set_enable, MIC24045.is_enabled, h0, h1, gpioChannels,
        List.range_succ] <;> try decide
  · obtain ⟨v0, h0⟩ := Option.isSome_iff_exists.mp (hbefore 0 (by simp [Fin.lt_def] <;> decide))
    obtain ⟨v1, h1⟩ := Option.isSome_iff_exists.mp (hbefore 1 (by simp [Fin.lt_def] <;> decide))
    have h2 : env 2 = none := hfail
    refine ⟨?_, ?_⟩ <;>
      simp [ALL_enable, ALL_enable_go, set_enable, MIC24045.is_enabled, h0, h1, h2, gpioChannels,
        List.range_succ] <;> try decide
  · obtain ⟨v0, h0⟩ := Option.isSome_iff_exists.mp (hbefore 0 (by simp [Fin.lt_def] <;> decide))
    obtain ⟨v1, h1⟩ := Option.isSome_iff_exists.mp (hbefore 1 (by simp [Fin.lt_def] <;> decide))
    obtain ⟨v2, h2⟩ := Option.isSome_iff_exists.mp (hbefore 2 (by simp [Fin.lt_def] <;> decide))
    have h3 : env 3 = none := hfail
    refine ⟨?_, ?_⟩ <;>
      simp [ALL_enable, ALL_enable_go, set_enable, MIC24045.is_enabled, h0, h1, h2, h3,
        gpioChannels, List.range_succ] <;> try decide

/-- C4 witness: with successful status reads on rails 0 and 1 and a bus
failure on rail 2, exactly rails 0, 1, 2 are invoked and ALL_enable reports
failure. -/
theorem claim_C4_witness :
    (ALL_enable (fun j => if j.val < 2 then some 9 else none)).2 = false ∧
    gpioChannels (ALL_enable (fun j => if j.val < 2 then some 9 else none)).1 = List.range 3 :=
  claim_C4 (fun j => if j.val < 2 then some 9 else none) 2 (by decide) (by decide)

/-- C5 counterexample: against an always-false _is_power_good and
timeout = 35, _wait_power_good performs 5 polls, not 3, and sleeps 40 ms in
total, past the 35 ms timeout, before returning failure. -/
theorem claim_C5_counterexample :
    (wait_power_good (fun _ => none) 35).2.1 ≠ 3 ∧
    ¬((wait_power_good (fun _ => none) 35).2.2 ≤ 35) := by
  have h : wait_power_good (fun _ => none) 35 = (false, 5, 40) := by
    simp [wait_power_good, wait_power_good_go]
  rw [h]
  norm_num

/-- C5 amended: _wait_power_good polls on a fixed 10 ms cadence and fails
at the first poll where the elapsed counter has reached the timeout; with
an always-false _is_power_good and timeout = 35 it performs exactly 5 polls
and 4 sleeps of 10 ms (40 ms in total, 5 ms past the timeout) before
returning failure. -/
theorem claim_C5_amended :
    wait_power_good (fun _ => none) 35 = (false, 5, 40) := by
  simp [wait_power_good, wait_power_good_go]

/-- C10: for every in-range channel and every current-limit value, _limit_A
raises NameError on the unbound name rself before performing any
multiplexer select or register write (the trace is empty), and therefore
ALL_limit_A (and with it every per-channel wrapper) also raises without
touching the bus. -/
theorem claim_C10 (selOk writeOk deselOk : Bool) (channel : Fin 4) (ilim : Int) :
    limit_A selOk writeOk deselOk channel ilim =
      ([], Except.error (PyErr.nameError "rself")) ∧
    ALL_limit_A selOk writeOk deselOk ilim =
      ([], Except.error (PyErr.nameError "rself")) := by
  exact ⟨rfl, rfl⟩

end ClaimVSM
